import Mathlib

/-!
Shallow embedding of the visitor-parking new-reservation card
(`visitor-parking-new-reservation-card` in the frontend sources) and of the
config-entry identifier helpers (`config-entry.ts`).

Conventions of the embedding:
* JS strings are Lean `String`; string helpers (`trim`, `toLowerCase`,
  `toUpperCase`) are re-implemented on `List Char` restricted to ASCII case
  mapping, so that every definition reduces in the kernel.
* The JS `Number(...)` coercion used on the favorite-select value is modelled
  by `jsNumber`, restricted to optionally signed decimal integer strings;
  every other input is mapped to `none`, which the card treats exactly like a
  non-finite number (`Number.isFinite` fails).
* `undefined`/`null` become `Option`; JS string truthiness (`""` is falsy) is
  `strTruthy`.
* Async service calls are modelled by passing in their outcome as a `Bool`
  and collecting the user-visible notifications (`_notify`) as the list of
  translation keys passed to `localize`.
-/

/-- Whitespace test used by the string trimming model (ASCII whitespace). -/
def isWsChar (c : Char) : Bool :=
  c = ' ' || c = '\t' || c = '\n' || c = '\r'

/-- Drop leading and trailing whitespace from a character list. -/
def trimCharList (l : List Char) : List Char :=
  ((l.dropWhile isWsChar).reverse.dropWhile isWsChar).reverse

/-- Model of JS `String.prototype.trim`. -/
def trimStr (s : String) : String :=
  String.mk (trimCharList s.data)

/-- ASCII lower-casing of one character (model of JS `toLowerCase`). -/
def lowerChar (c : Char) : Char :=
  if 'A' ≤ c ∧ c ≤ 'Z' then Char.ofNat (c.toNat + 32) else c

/-- ASCII upper-casing of one character (model of JS `toUpperCase`). -/
def upperChar (c : Char) : Char :=
  if 'a' ≤ c ∧ c ≤ 'z' then Char.ofNat (c.toNat - 32) else c

/-- Model of JS `String.prototype.toLowerCase` (ASCII). -/
def lowerStr (s : String) : String :=
  String.mk (s.data.map lowerChar)

/-- Model of JS `String.prototype.toUpperCase` (ASCII). -/
def upperStr (s : String) : String :=
  String.mk (s.data.map upperChar)

/-- Characters kept by the plate normalizer's `[^A-Z0-9]` strip. -/
def isPlateChar (c : Char) : Bool :=
  ('A' ≤ c && c ≤ 'Z') || ('0' ≤ c && c ≤ '9')

/-- Digits-only string to `Nat`. -/
def digitsToNat (l : List Char) : Nat :=
  l.foldl (fun acc c => 10 * acc + (c.toNat - '0'.toNat)) 0

/-- Model of the JS `Number(...)` coercion as used on the favorite select
value, restricted to optionally signed decimal integer strings.  All other
inputs are sent to `none`, which downstream code treats exactly like a value
rejected by `Number.isFinite` (`NaN`, `Infinity`). The empty string coerces
to `0` as in JS. -/
def jsNumber (s : String) : Option Int :=
  let t := trimStr s
  if t = "" then some 0
  else
    match t.data with
    | '-' :: rest =>
      if rest ≠ [] ∧ rest.all Char.isDigit then some (-(digitsToNat rest : Int)) else none
    | '+' :: rest =>
      if rest ≠ [] ∧ rest.all Char.isDigit then some (digitsToNat rest : Int) else none
    | l =>
      if l ≠ [] ∧ l.all Char.isDigit then some (digitsToNat l : Int) else none

/-- JS string truthiness for an optional string (`undefined` and `""` are
falsy). -/
def strTruthy (o : Option String) : Bool :=
  match o with
  | none => false
  | some s => s ≠ ""

/-- A favorite id as delivered by the provider: a JS number or a string
(`id?: number | string`). -/
inductive FavoriteId where
  | num (n : Int)
  | str (s : String)
deriving DecidableEq

/-- One favorite record (`type Favorite` in the card source). -/
structure Favorite where
  id : Option FavoriteId
  name : Option String
  license_plate : Option String
deriving DecidableEq

instance : Inhabited Favorite := ⟨⟨none, none, none⟩⟩

/-- The card's draft state: the favorite-select raw value and the two text
inputs (`_favoriteDraft`, `_nameDraft`, `_licensePlateDraft`). -/
structure DraftState where
  favoriteDraft : String
  nameDraft : String
  licensePlateDraft : String
deriving DecidableEq

/-- `_normalizeName`: trim then lower-case. -/
def normalizeName (value : String) : String :=
  lowerStr (trimStr value)

/-- `_normalizePlate`: trim, upper-case, strip every character outside
`[A-Z0-9]`. -/
def normalizePlate (value : String) : String :=
  String.mk (((upperStr (trimStr value)).data).filter isPlateChar)

/-- `_favoriteMatchesDraft`: both normalized fields equal. -/
def favoriteMatchesDraft (favorite : Favorite) (name plate : String) : Bool :=
  (normalizeName (favorite.name.getD "") == normalizeName name) &&
  (normalizePlate (favorite.license_plate.getD "") == normalizePlate plate)

/-- First index of a favorite matching the draft, starting from index 0
(the `for` loop body of `_findFavoriteIndexByDraft`). -/
def findMatchIdx (name plate : String) : List Favorite → Option Nat
  | [] => none
  | f :: rest =>
    if favoriteMatchesDraft f name plate then some 0
    else (findMatchIdx name plate rest).map (· + 1)

/-- `_findFavoriteIndexByDraft`: `undefined` when either draft field trims to
empty, otherwise the first matching index. -/
def findFavoriteIndexByDraft (favorites : List Favorite) (name plate : String) : Option Nat :=
  if trimStr name = "" || trimStr plate = "" then none
  else findMatchIdx name plate favorites

/-- `_selectedFavoriteIndex`: the favorite-select value parsed as a number;
empty value, non-finite parse, or out-of-range index all give `none`. -/
def selectedFavoriteIndex (favorites : List Favorite) (favoriteDraft : String) : Option Nat :=
  if favoriteDraft = "" then none
  else
    match jsNumber favoriteDraft with
    | none => none
    | some n => if n < 0 || (favorites.length : Int) ≤ n then none else some n.toNat

/-- `_selectedFavorite`. -/
def selectedFavorite (favorites : List Favorite) (favoriteDraft : String) : Option Favorite :=
  (selectedFavoriteIndex favorites favoriteDraft).bind (favorites[·]?)

/-- `_selectedFavoriteId`: a finite numeric id is stringified, a string id is
trimmed and must be non-empty; anything else is `undefined`. -/
def selectedFavoriteId (favorites : List Favorite) (d : DraftState) : Option String :=
  match (selectedFavorite favorites d.favoriteDraft).bind Favorite.id with
  | some (.num n) => some (toString n)
  | some (.str s) => if trimStr s ≠ "" then some (trimStr s) else none
  | none => none

/-- `_draftMatchesExistingFavorite`. -/
def draftMatchesExistingFavorite (favorites : List Favorite) (d : DraftState) : Bool :=
  (findFavoriteIndexByDraft favorites d.nameDraft d.licensePlateDraft).isSome

/-- `_selectedFavoriteChanged`. -/
def selectedFavoriteChanged (favorites : List Favorite) (d : DraftState) : Bool :=
  match selectedFavorite favorites d.favoriteDraft with
  | none => false
  | some sel => !favoriteMatchesDraft sel d.nameDraft d.licensePlateDraft

/-- `_selectedFavoriteNameChanged`. -/
def selectedFavoriteNameChanged (favorites : List Favorite) (d : DraftState) : Bool :=
  match selectedFavorite favorites d.favoriteDraft with
  | none => false
  | some sel => !(normalizeName (sel.name.getD "") == normalizeName d.nameDraft)

/-- `_selectedFavoritePlateChanged`. -/
def selectedFavoritePlateChanged (favorites : List Favorite) (d : DraftState) : Bool :=
  match selectedFavorite favorites d.favoriteDraft with
  | none => false
  | some sel => !(normalizePlate (sel.license_plate.getD "") == normalizePlate d.licensePlateDraft)

/-- `_selectedFavoriteChangedBoth`. -/
def selectedFavoriteChangedBoth (favorites : List Favorite) (d : DraftState) : Bool :=
  selectedFavoriteNameChanged favorites d && selectedFavoritePlateChanged favorites d

/-- `_showAddToFavorites`. -/
def showAddToFavorites (favorites : List Favorite) (d : DraftState) : Bool :=
  if trimStr d.nameDraft = "" || trimStr d.licensePlateDraft = "" then false
  else if (selectedFavorite favorites d.favoriteDraft).isSome &&
          !selectedFavoriteChangedBoth favorites d then false
  else !draftMatchesExistingFavorite favorites d

/-- `_offerUpdateFavorite`. -/
def offerUpdateFavorite (favorites : List Favorite) (d : DraftState) : Bool :=
  if (selectedFavorite favorites d.favoriteDraft).isNone then false
  else selectedFavoriteChanged favorites d && !selectedFavoriteChangedBoth favorites d

/-- `_draftDuplicatesOtherFavorite`. -/
def draftDuplicatesOtherFavorite (favorites : List Favorite) (d : DraftState) : Bool :=
  match selectedFavoriteIndex favorites d.favoriteDraft with
  | none => false
  | some selectedIndex =>
    match findFavoriteIndexByDraft favorites d.nameDraft d.licensePlateDraft with
    | none => false
    | some matchingIndex => matchingIndex ≠ selectedIndex

/-- `_canUpdateFavorite`. -/
def canUpdateFavorite (favorites : List Favorite) (d : DraftState) : Bool :=
  if !offerUpdateFavorite favorites d then false
  else if trimStr d.nameDraft = "" || trimStr d.licensePlateDraft = "" then false
  else !draftDuplicatesOtherFavorite favorites d

/-- `canDeleteFavorite` (local of `render`): `Boolean(this._selectedFavoriteId)`. -/
def canDeleteFavorite (favorites : List Favorite) (d : DraftState) : Bool :=
  (selectedFavoriteId favorites d).isSome

/-- `showDeleteFavorite` (local of `render`). -/
def showDeleteFavorite (favorites : List Favorite) (d : DraftState) : Bool :=
  canDeleteFavorite favorites d && !offerUpdateFavorite favorites d &&
  !showAddToFavorites favorites d






/-- `ConfigEntrySummary` from `config-entry.ts` (`unique_id?: string | null`;
`null` and absence both become `none`, matching the `typeof` check). -/
structure ConfigEntrySummary where
  entry_id : String
  title : String
  unique_id : Option String
deriving DecidableEq

instance : Inhabited ConfigEntrySummary := ⟨⟨"", "", none⟩⟩

/-- Longest suffix of a character list whose members satisfy `p`. -/
def takeRightWhile (p : Char → Bool) (l : List Char) : List Char :=
  (l.reverse.takeWhile p).reverse

/-- `parseIdFromTitle`: the JS regex match against a trailing parenthetical,
written out: after dropping trailing whitespace the title must end in a
closing parenthesis whose group contains no further closing parenthesis; the
group runs from the first opening parenthesis after the previous closing one
(the regex's leftmost match), must be non-empty, and is trimmed; a blank
group yields `undefined`. -/
def parseIdFromTitle (title : String) : Option String :=
  let t := (title.data.reverse.dropWhile isWsChar).reverse
  match t.getLast? with
  | some ')' =>
    let body := t.dropLast
    let seg := takeRightWhile (fun c => c ≠ ')') body
    match seg.dropWhile (fun c => c ≠ '(') with
    | [] => none
    | _ :: content =>
      let s := trimStr (String.mk content)
      if s = "" then none else some s
  | _ => none

/-- `resolveIdentifierFromEntry` from `config-entry.ts`. -/
def resolveIdentifierFromEntry (entry : ConfigEntrySummary) : String :=
  let uniqueId := match entry.unique_id with
    | some u => trimStr u
    | none => ""
  if uniqueId ≠ "" ∧ lowerStr uniqueId ≠ "none" then uniqueId
  else (parseIdFromTitle entry.title).getD entry.entry_id

/-- `EntityRegistryEntry` from `config-entry.ts`. -/
structure EntityRegistryEntry where
  entity_id : String
  config_entry_id : Option String
deriving DecidableEq

/-- The card configuration (`VisitorParkingNewReservationCardConfig`). -/
structure CardConfig where
  type : String
  title : Option String
  config_entry_id : Option String
  favorites_entity : Option String
deriving DecidableEq

/-- The slice of the host handle the card reads (`hass.user?.is_admin` and
the presence of `hass.callWS`). -/
structure Hass where
  isAdmin : Bool
  hasWS : Bool
deriving DecidableEq

/-- The card's reactive state (the `@state`/private fields of
`VisitorParkingNewReservationCard`). -/
structure CardState where
  config : Option CardConfig
  draft : DraftState
  addToFavorites : Bool
  updateFavorite : Bool
  submitting : Bool
  deletingFavorite : Bool
  updatingFavorite : Bool
  resolvingService : Bool
  resolvedConfigEntryId : Option String
  resolvedIdentifier : Option String
  entries : List ConfigEntrySummary
  entriesLoaded : Bool
  entityRegistry : List EntityRegistryEntry
  entityRegistryLoaded : Bool
  selectedEntryId : Option String
  lastResolveAttempt : Option Int
  lastResolveEntryId : Option String
deriving DecidableEq

/-- `_activeEntryId`: the pinned config entry wins, then the manual
selection, then the unique loaded entry. -/
def activeEntryId (s : CardState) : Option String :=
  if strTruthy (s.config.bind CardConfig.config_entry_id) then
    s.config.bind CardConfig.config_entry_id
  else if strTruthy s.selectedEntryId then s.selectedEntryId
  else if s.entriesLoaded && s.entries.length == 1 then
    s.entries.head?.map ConfigEntrySummary.entry_id
  else none

/-- `_entryIdentifier`: look the entry up in the loaded list and resolve its
identifier locally. -/
def entryIdentifier (entries : List ConfigEntrySummary) (entryId : Option String) : Option String :=
  if !strTruthy entryId then none
  else
    match entries.find? (fun item => item.entry_id == entryId.getD "") with
    | some entry => some (resolveIdentifierFromEntry entry)
    | none => none

/-- `_setSelectedEntry`: change the manually selected entry and reset the
resolution cache, the retry bookkeeping, the drafts and the toggles. -/
def setSelectedEntry (s : CardState) (entryId : Option String) : CardState :=
  { s with
    selectedEntryId := entryId
    resolvedConfigEntryId := none
    resolvedIdentifier := none
    lastResolveAttempt := none
    lastResolveEntryId := none
    draft := ⟨"", "", ""⟩
    addToFavorites := false
    updateFavorite := false }

/-- The fixed retry cooldown (`30_000` ms in the source). -/
def resolveCooldown : Int := 30000

/-- The side effects the `updated` lifecycle hook can launch: the two lazy
loads and an identity-resolution attempt for an entry id. -/
structure UpdatedEffects where
  loadEntries : Bool
  loadRegistry : Bool
  resolveEntry : Option String
deriving DecidableEq

/-- The lazy-load section of `updated`: when the host handle cannot serve
the admin websocket calls the loaded flags are set synchronously, otherwise
the asynchronous loads are launched (reported as the two booleans). -/
def updatedLoads (h : Hass) (s0 : CardState) : CardState × Bool × Bool :=
  let s1 := if !s0.entriesLoaded && !(h.isAdmin && h.hasWS) then
      { s0 with entriesLoaded := true } else s0
  let loadE := !s0.entriesLoaded && (h.isAdmin && h.hasWS)
  let s2 := if !s0.entityRegistryLoaded && !(h.isAdmin && h.hasWS) then
      { s1 with entityRegistryLoaded := true } else s1
  let loadR := !s0.entityRegistryLoaded && (h.isAdmin && h.hasWS)
  (s2, loadE, loadR)

/-- The resolution section of `updated` (from `const entryId = ...` onward):
early return when there is no active entry or a favorites-entity override is
configured; local identifier resolution; otherwise the cooldown-gated launch
of an identity-resolution attempt (returned as the optional entry id). -/
def updatedResolve (h : Hass) (cfg : CardConfig) (s2 : CardState)
    (changedConfig : Option (Option CardConfig)) (now : Int) :
    CardState × Option String :=
  let favoritesEntity := trimStr (cfg.favorites_entity.getD "")
  let entryId := activeEntryId s2
  if !strTruthy entryId || favoritesEntity != "" then (s2, none)
  else
    match entryIdentifier s2.entries entryId with
    | some identifier =>
      ({ s2 with resolvedIdentifier := some identifier,
                 resolvedConfigEntryId := entryId }, none)
    | none =>
      if !h.isAdmin then (s2, none)
      else if !h.hasWS then (s2, none)
      else
        let entryIdChanged := match changedConfig with
          | none => false
          | some prev => (prev.bind CardConfig.config_entry_id) != entryId
        let s3 := if entryIdChanged then
            { s2 with resolvedConfigEntryId := none, resolvedIdentifier := none,
                      lastResolveAttempt := none, lastResolveEntryId := none }
          else s2
        if s3.resolvingService then (s3, none)
        else if s3.resolvedConfigEntryId == entryId then (s3, none)
        else
          let lastAttemptRelevant := s3.lastResolveEntryId == entryId
          let retryDue := !lastAttemptRelevant ||
            (match s3.lastResolveAttempt with
             | none => true
             | some t => decide (now - t > resolveCooldown))
          if !retryDue then (s3, none)
          else
            ({ s3 with lastResolveAttempt := some now, lastResolveEntryId := entryId },
             entryId)

/-- One synchronous evaluation of the `updated` lifecycle hook.
`changedConfig = some prev` models `changedProps` containing `_config` with
previous value `prev`; `now` models `Date.now()`.  The async bodies of
`_loadEntries`, `_loadEntityRegistry` and `_resolveIdFromConfigEntry` are
not part of this step; their launch is reported in `UpdatedEffects`. -/
def updatedStep (hass : Option Hass) (s0 : CardState)
    (changedConfig : Option (Option CardConfig)) (now : Int) :
    CardState × UpdatedEffects :=
  match hass, s0.config with
  | none, _ => (s0, ⟨false, false, none⟩)
  | some _, none => (s0, ⟨false, false, none⟩)
  | some h, some cfg =>
    let loads := updatedLoads h s0
    let resolved := updatedResolve h cfg loads.1 changedConfig now
    (resolved.1, ⟨loads.2.1, loads.2.2, resolved.2⟩)

/-- `_syncFavoriteToggles`. -/
def syncFavoriteToggles (favorites : List Favorite) (s : CardState) : CardState :=
  if (selectedFavorite favorites s.draft.favoriteDraft).isSome then
    let s1 := if !showAddToFavorites favorites s.draft then
        { s with addToFavorites := false } else s
    if !canUpdateFavorite favorites s1.draft then
      { s1 with updateFavorite := false } else s1
  else
    let s1 := { s with updateFavorite := false }
    if !showAddToFavorites favorites s1.draft then
      { s1 with addToFavorites := false } else s1

/-- `_deleteFavorite`, with the outcome of the `delete_favorite` service call
passed in as `callOk`; the returned list collects the notification keys. -/
def deleteFavoriteStep (hass : Option Hass) (favorites : List Favorite)
    (s : CardState) (callOk : Bool) : CardState × List String :=
  if hass.isNone || s.config.isNone then (s, [])
  else if !strTruthy (activeEntryId s) && s.entriesLoaded &&
          decide (1 < s.entries.length) then (s, [])
  else if (selectedFavoriteId favorites s.draft).isNone then (s, [])
  else
    let s1 := { s with deletingFavorite := true }
    if callOk then
      let s2 := { s1 with draft := { s1.draft with favoriteDraft := "" },
                          updateFavorite := false }
      let s3 := syncFavoriteToggles favorites s2
      ({ s3 with deletingFavorite := false }, [])
    else
      ({ s1 with deletingFavorite := false },
       ["new_reservation_card.could_not_remove_favorite"])

/-- `_submit`, with the outcomes of the `create_reservation` call
(`reservationOk`) and of the follow-up favorite mutation (`favoriteCallOk`)
passed in; the returned list collects the notification keys. -/
def submitStep (hass : Option Hass) (favorites : List Favorite)
    (s : CardState) (reservationOk favoriteCallOk : Bool) :
    CardState × List String :=
  if hass.isNone || s.config.isNone then (s, [])
  else if !strTruthy (activeEntryId s) && s.entriesLoaded &&
          decide (1 < s.entries.length) then (s, [])
  else
    let licensePlate := trimStr s.draft.licensePlateDraft
    if licensePlate = "" then
      (s, ["new_reservation_card.license_plate_required_error"])
    else
      let favId := selectedFavoriteId favorites s.draft
      let shouldUpdateFavorite := favId.isSome && s.updateFavorite &&
        canUpdateFavorite favorites s.draft && selectedFavoriteChanged favorites s.draft
      let shouldAddFavorite := s.addToFavorites && showAddToFavorites favorites s.draft
      let s1 := { s with submitting := true }
      if !reservationOk then
        ({ s1 with submitting := false }, ["new_reservation_card.could_not_submit"])
      else
        let step2 : CardState × List String :=
          if shouldUpdateFavorite then
            if trimStr s1.draft.nameDraft = "" then
              (s1, ["new_reservation_card.favorite_name_required_error"])
            else
              let su := { s1 with updatingFavorite := true }
              ({ su with updatingFavorite := false },
               if !favoriteCallOk then
                 ["new_reservation_card.could_not_update_favorite"] else [])
          else if shouldAddFavorite then
            if trimStr s1.draft.nameDraft = "" then
              (s1, ["new_reservation_card.favorite_name_required_error"])
            else
              (s1, if !favoriteCallOk then
                ["new_reservation_card.could_not_save_favorite"] else [])
          else (s1, [])
        ({ step2.1 with draft := ⟨"", "", ""⟩, addToFavorites := false,
                        updateFavorite := false, submitting := false },
         step2.2)





/-- The delete-visibility rule exactly as the claim words it:
`showDelete = hasSelection AND NOT showUpdate AND NOT showAdd`, where
`hasSelection` is "a favorite is selected" (a valid selected index). -/
def showDeleteFavoriteClaimed (favorites : List Favorite) (d : DraftState) : Bool :=
  (selectedFavoriteIndex favorites d.favoriteDraft).isSome &&
  !offerUpdateFavorite favorites d && !showAddToFavorites favorites d

/-- Whether a favorite carries an id usable by `_selectedFavoriteId`: a
finite numeric id, or a string id that is non-blank after trimming. -/
def favoriteHasUsableId (f : Favorite) : Bool :=
  match f.id with
  | some (.num _) => true
  | some (.str s) => trimStr s ≠ ""
  | none => false

/-- The duplicate test as the claim words it: the draft matches, by
normalized name and plate, a favorite sitting at an index different from the
selected one. -/
def draftMatchesOtherFavorite (favorites : List Favorite) (d : DraftState) : Bool :=
  match selectedFavoriteIndex favorites d.favoriteDraft with
  | none => false
  | some si =>
    (List.range favorites.length).any fun j =>
      j != si && favoriteMatchesDraft (favorites.getD j default) d.nameDraft d.licensePlateDraft

/-- The resolution preference exactly as the claim words it: the declared
identifier whenever present, otherwise the id parsed from the title's
trailing parenthetical, otherwise the entry's own handle. -/
def resolveIdentifierClaimed (entry : ConfigEntrySummary) : String :=
  match entry.unique_id with
  | some u => u
  | none => (parseIdFromTitle entry.title).getD entry.entry_id

/-- A card state pinned (by config) to entry `A`, with a recent resolution
attempt for `A` on record. -/
def c4State : CardState where
  config := some ⟨"custom", none, some "A", none⟩
  draft := ⟨"", "", ""⟩
  addToFavorites := false
  updateFavorite := false
  submitting := false
  deletingFavorite := false
  updatingFavorite := false
  resolvingService := false
  resolvedConfigEntryId := none
  resolvedIdentifier := none
  entries := []
  entriesLoaded := true
  entityRegistry := []
  entityRegistryLoaded := true
  selectedEntryId := none
  lastResolveAttempt := some 100
  lastResolveEntryId := some "A"

/-- A card state pinned to entry `A` with an in-progress draft name. -/
def c5State : CardState where
  config := some ⟨"custom", none, some "A", none⟩
  draft := ⟨"", "Bob", ""⟩
  addToFavorites := false
  updateFavorite := false
  submitting := false
  deletingFavorite := false
  updatingFavorite := false
  resolvingService := false
  resolvedConfigEntryId := none
  resolvedIdentifier := none
  entries := []
  entriesLoaded := true
  entityRegistry := []
  entityRegistryLoaded := true
  selectedEntryId := none
  lastResolveAttempt := none
  lastResolveEntryId := none

/-- The previous card configuration used by the account-change scenarios:
pinned to entry `B`. -/
def prevConfigB : CardConfig := ⟨"custom", none, some "B", none⟩

/-- A card state about to submit a new reservation with the add-to-favorites
toggle on. -/
def c10State : CardState where
  config := some ⟨"custom", none, some "A", none⟩
  draft := ⟨"", "Bob", "XY-99-ZZ"⟩
  addToFavorites := true
  updateFavorite := false
  submitting := false
  deletingFavorite := false
  updatingFavorite := false
  resolvingService := false
  resolvedConfigEntryId := none
  resolvedIdentifier := none
  entries := []
  entriesLoaded := true
  entityRegistry := []
  entityRegistryLoaded := true
  selectedEntryId := none
  lastResolveAttempt := none
  lastResolveEntryId := none

/-- The update-enabling rule exactly as the claim words it: both draft
fields non-empty as raw strings (not trimmed). -/
def updateEnabledClaimed (favorites : List Favorite) (d : DraftState) : Bool :=
  offerUpdateFavorite favorites d && !(d.nameDraft == "") && !(d.licensePlateDraft == "") &&
  !draftMatchesOtherFavorite favorites d

/-- A card state whose active account comes from the manual entry
selection (`A`), with an unpinned configuration and a recent resolution
attempt for `A` on record. -/
def c4bState : CardState where
  config := some ⟨"custom", some "New", none, none⟩
  draft := ⟨"", "", ""⟩
  addToFavorites := false
  updateFavorite := false
  submitting := false
  deletingFavorite := false
  updatingFavorite := false
  resolvingService := false
  resolvedConfigEntryId := none
  resolvedIdentifier := none
  entries := []
  entriesLoaded := true
  entityRegistry := []
  entityRegistryLoaded := true
  selectedEntryId := some "A"
  lastResolveAttempt := some 100
  lastResolveEntryId := some "A"

/-- A previous card configuration differing from `c4bState`'s only in the
title; neither pins a config entry. -/
def prevTitleConfig : CardConfig := ⟨"custom", some "Old", none, none⟩


theorem favoriteMatchesDraft_self (f : Favorite) :
    favoriteMatchesDraft f (f.name.getD "") (f.license_plate.getD "") = true := by
  simp [favoriteMatchesDraft]

theorem findMatchIdx_eq_some_iff (name plate : String) (l : List Favorite) (i : Nat) :
    findMatchIdx name plate l = some i ↔
      i < l.length ∧ favoriteMatchesDraft (l.getD i default) name plate = true ∧
      ∀ j, j < i → favoriteMatchesDraft (l.getD j default) name plate = false := by
  induction l generalizing i with
  | nil => simp [findMatchIdx]
  | cons f rest ih =>
    by_cases hf : favoriteMatchesDraft f name plate = true
    · rw [findMatchIdx, if_pos hf]
      constructor
      · intro h
        obtain rfl : (0 : Nat) = i := by simpa using h
        exact ⟨Nat.succ_pos _, by simpa using hf, fun j hj => absurd hj (Nat.not_lt_zero j)⟩
      · rintro ⟨hlen, hpred, hall⟩
        cases i with
        | zero => rfl
        | succ k =>
          have h0 := hall 0 (Nat.succ_pos k)
          simp only [List.getD_cons_zero] at h0
          rw [h0] at hf
          simp at hf
    · rw [findMatchIdx, if_neg hf]
      have hf2 : favoriteMatchesDraft f name plate = false := by
        cases hfb : favoriteMatchesDraft f name plate
        · rfl
        · exact absurd hfb hf
      cases i with
      | zero =>
        constructor
        · intro h
          rw [Option.map_eq_some'] at h
          obtain ⟨a, _, ha⟩ := h
          exact absurd ha (by omega)
        · rintro ⟨hlen, hpred, hall⟩
          simp only [List.getD_cons_zero] at hpred
          rw [hpred] at hf
          simp at hf
      | succ k =>
        rw [Option.map_eq_some']
        constructor
        · rintro ⟨a, ha, hak⟩
          obtain rfl : a = k := by omega
          obtain ⟨hlen, hpred, hall⟩ := (ih a).mp ha
          refine ⟨by simpa using Nat.succ_lt_succ hlen, by simpa using hpred, ?_⟩
          intro j hj
          cases j with
          | zero => simpa using hf2
          | succ m =>
            have := hall m (by omega)
            simpa using this
        · rintro ⟨hlen, hpred, hall⟩
          refine ⟨k, (ih k).mpr ⟨?_, by simpa using hpred, ?_⟩, rfl⟩
          · simpa using Nat.lt_of_succ_lt_succ hlen
          · intro j hj
            have := hall (j + 1) (by omega)
            simpa using this

theorem findMatchIdx_eq_none_iff (name plate : String) (l : List Favorite) :
    findMatchIdx name plate l = none ↔
      ∀ j, j < l.length → favoriteMatchesDraft (l.getD j default) name plate = false := by
  induction l with
  | nil => simp [findMatchIdx]
  | cons f rest ih =>
    by_cases hf : favoriteMatchesDraft f name plate = true
    · rw [findMatchIdx, if_pos hf]
      constructor
      · intro h
        exact absurd h (by simp)
      · intro h
        have h0 := h 0 (Nat.succ_pos _)
        simp only [List.getD_cons_zero] at h0
        rw [h0] at hf
        simp at hf
    · rw [findMatchIdx, if_neg hf]
      have hf2 : favoriteMatchesDraft f name plate = false := by
        cases hfb : favoriteMatchesDraft f name plate
        · rfl
        · exact absurd hfb hf
      rw [Option.map_eq_none', ih]
      constructor
      · intro h j hj
        cases j with
        | zero => simpa using hf2
        | succ m =>
          have := h m (by simpa using Nat.lt_of_succ_lt_succ hj)
          simpa using this
      · intro h j hj
        have := h (j + 1) (by simpa using Nat.succ_lt_succ hj)
        simpa using this

theorem selectedFavoriteIndex_lt_length (favorites : List Favorite) (fd : String) (i : Nat)
    (h : selectedFavoriteIndex favorites fd = some i) : i < favorites.length := by
  unfold selectedFavoriteIndex at h
  split at h
  · exact absurd h (by simp)
  · split at h
    · exact absurd h (by simp)
    · rename_i n heqn
      split at h
      · exact absurd h (by simp)
      · rename_i hcond
        obtain rfl : n.toNat = i := by simpa using h
        simp only [Bool.or_eq_true, decide_eq_true_eq, not_or] at hcond
        omega

theorem selectedFavorite_getD (favorites : List Favorite) (fd : String) (sel : Favorite)
    (h : selectedFavorite favorites fd = some sel) :
    ∃ si, selectedFavoriteIndex favorites fd = some si ∧ si < favorites.length ∧
      favorites.getD si default = sel := by
  unfold selectedFavorite at h
  cases hi : selectedFavoriteIndex favorites fd with
  | none => rw [hi] at h; simp at h
  | some si =>
    rw [hi] at h
    rw [Option.some_bind] at h
    refine ⟨si, rfl, selectedFavoriteIndex_lt_length favorites fd si hi, ?_⟩
    simp [List.getD_eq_getElem?_getD, h]

/-- C1: for every favorites list and draft state, at most one of the two
derived flags `showAdd` (`_showAddToFavorites`) and `showUpdate`
(`_offerUpdateFavorite`) is true. -/
theorem claim1_showAdd_showUpdate_exclusive (favorites : List Favorite) (d : DraftState) :
    (showAddToFavorites favorites d && offerUpdateFavorite favorites d) = false := by
  unfold showAddToFavorites offerUpdateFavorite
  cases hsel : selectedFavorite favorites d.favoriteDraft with
  | none => simp [hsel]
  | some sel =>
    by_cases hboth : selectedFavoriteChangedBoth favorites d
    · simp [hsel, hboth]
    · simp [hsel, hboth]

/-- C2 counterexample: with a single selected favorite that carries no id
and a draft equal to it, the claim's rule
(`showDelete = hasSelection AND NOT showUpdate AND NOT showAdd`) says the
delete action is shown, but the card hides it because
`_selectedFavoriteId` is `undefined`. -/
theorem claim2_counterexample :
    showDeleteFavoriteClaimed [({ id := none, name := some "Mom", license_plate := some "AB12CD" } : Favorite)]
        ⟨"0", "Mom", "AB12CD"⟩ = true ∧
    showDeleteFavorite [({ id := none, name := some "Mom", license_plate := some "AB12CD" } : Favorite)]
        ⟨"0", "Mom", "AB12CD"⟩ = false := by
  decide


/-- C2 amended: the delete-favorite action is shown exactly when the
selected favorite exists and carries a usable id (a numeric id, or a string
id that is non-blank after trimming) and neither the update-favorite nor the
add-to-favorites action applies. -/
theorem claim2_showDelete_needs_usable_id (favorites : List Favorite) (d : DraftState) :
    showDeleteFavorite favorites d =
      ((match selectedFavorite favorites d.favoriteDraft with
        | none => false
        | some f => favoriteHasUsableId f) &&
       !offerUpdateFavorite favorites d && !showAddToFavorites favorites d) := by
  have hdel : canDeleteFavorite favorites d =
      (match selectedFavorite favorites d.favoriteDraft with
       | none => false
       | some f => favoriteHasUsableId f) := by
    unfold canDeleteFavorite selectedFavoriteId favoriteHasUsableId
    cases hsel : selectedFavorite favorites d.favoriteDraft with
    | none => simp
    | some f =>
      cases hid : f.id with
      | none => simp [hid]
      | some fid =>
        cases fid with
        | num n => simp [hid]
        | str s =>
          by_cases hs : trimStr s ≠ ""
          · simp [hid, hs]
          · simp [hid, hs]
  unfold showDeleteFavorite
  rw [hdel]

/-- C3 counterexample: with a blank-named selected favorite and a
whitespace-only draft name, the update action is offered, both raw draft
fields are non-empty and no other favorite matches, so the claim's rule
enables the update; but `_canUpdateFavorite` is false because it guards on
the trimmed fields. -/
theorem claim3_counterexample :
    updateEnabledClaimed [({ id := none, name := some "", license_plate := some "AB" } : Favorite)]
        ⟨"0", " ", "XY"⟩ = true ∧
    canUpdateFavorite [({ id := none, name := some "", license_plate := some "AB" } : Favorite)]
        ⟨"0", " ", "XY"⟩ = false := by
  decide

/-- C3 amended: the update-favorite action is enabled exactly when it is
offered, both draft fields are non-blank after trimming, and the draft does
not match (by normalized name and plate) a favorite at an index different
from the selected one. -/
theorem claim3_updateEnabled_characterization (favorites : List Favorite) (d : DraftState) :
    canUpdateFavorite favorites d =
      (offerUpdateFavorite favorites d &&
       !(trimStr d.nameDraft == "") && !(trimStr d.licensePlateDraft == "") &&
       !draftMatchesOtherFavorite favorites d) := by
  by_cases hoffer : offerUpdateFavorite favorites d = true
  swap
  · have hoffer' : offerUpdateFavorite favorites d = false := by
      cases hb : offerUpdateFavorite favorites d
      · rfl
      · exact absurd hb hoffer
    simp [canUpdateFavorite, hoffer']
  by_cases hn : trimStr d.nameDraft = ""
  · simp [canUpdateFavorite, hoffer, hn]
  by_cases hp : trimStr d.licensePlateDraft = ""
  · simp [canUpdateFavorite, hoffer, hn, hp]
  suffices hdup : draftMatchesOtherFavorite favorites d = draftDuplicatesOtherFavorite favorites d by
    simp [canUpdateFavorite, hoffer, hn, hp, hdup]
  cases hsel : selectedFavorite favorites d.favoriteDraft with
  | none =>
    unfold offerUpdateFavorite at hoffer
    rw [hsel] at hoffer
    simp at hoffer
  | some sel =>
    have hch : selectedFavoriteChanged favorites d = true := by
      unfold offerUpdateFavorite at hoffer
      rw [hsel] at hoffer
      simp at hoffer
      exact hoffer.1
    have hpredsel : favoriteMatchesDraft sel d.nameDraft d.licensePlateDraft = false := by
      unfold selectedFavoriteChanged at hch
      rw [hsel] at hch
      simpa using hch
    obtain ⟨si, hsi, hsilt, hsiget⟩ := selectedFavorite_getD favorites d.favoriteDraft sel hsel
    unfold draftMatchesOtherFavorite draftDuplicatesOtherFavorite findFavoriteIndexByDraft
    rw [hsi]
    rw [if_neg (by simp [hn, hp])]
    cases hfind : findMatchIdx d.nameDraft d.licensePlateDraft favorites with
    | none =>
      have hall := (findMatchIdx_eq_none_iff d.nameDraft d.licensePlateDraft favorites).mp hfind
      show ((List.range favorites.length).any fun j =>
          j != si && favoriteMatchesDraft (favorites.getD j default) d.nameDraft d.licensePlateDraft) = false
      refine Bool.eq_false_iff.mpr ?_
      intro hex
      obtain ⟨j, hjmem, hj⟩ := List.any_eq_true.mp hex
      rw [Bool.and_eq_true] at hj
      have hjf := hall j (List.mem_range.mp hjmem)
      rw [hj.2] at hjf
      simp at hjf
    | some mi =>
      obtain ⟨hmilen, hmipred, _⟩ :=
        (findMatchIdx_eq_some_iff d.nameDraft d.licensePlateDraft favorites mi).mp hfind
      have hmisi : mi ≠ si := by
        intro hcontra
        rw [hcontra, hsiget] at hmipred
        rw [hmipred] at hpredsel
        simp at hpredsel
      have hany : ((List.range favorites.length).any fun j =>
          j != si && favoriteMatchesDraft (favorites.getD j default) d.nameDraft d.licensePlateDraft) = true := by
        refine List.any_eq_true.mpr ⟨mi, List.mem_range.mpr hmilen, ?_⟩
        rw [Bool.and_eq_true]
        exact ⟨bne_iff_ne.mpr hmisi, hmipred⟩
      show ((List.range favorites.length).any fun j =>
          j != si && favoriteMatchesDraft (favorites.getD j default) d.nameDraft d.licensePlateDraft) =
        decide (mi ≠ si)
      rw [hany]
      simp [hmisi]

/-- C7 counterexample: a whitespace-only draft name is not the empty string,
and the one favorite matches the draft by normalized name and plate, so the
claim says the smallest matching index (0) is returned; the code returns
`none` because it guards on the trimmed fields. -/
theorem claim7_counterexample :
    (" " == "") = false ∧ ("X" == "") = false ∧
    favoriteMatchesDraft ({ id := none, name := some "", license_plate := some "X" } : Favorite)
      " " "X" = true ∧
    findFavoriteIndexByDraft
      [({ id := none, name := some "", license_plate := some "X" } : Favorite)] " " "X" = none := by
  decide

/-- C7 amended: `findMatchingIndex` returns `none` when either draft field
is empty or whitespace-only (trims to empty), and otherwise returns `some i`
exactly for the smallest index `i` whose favorite's normalized name and
plate both equal the draft's normalized name and plate. -/
theorem claim7_findMatchingIndex_characterization (favorites : List Favorite) (name plate : String) :
    ((trimStr name = "" ∨ trimStr plate = "") →
      findFavoriteIndexByDraft favorites name plate = none) ∧
    ∀ i, (findFavoriteIndexByDraft favorites name plate = some i ↔
      trimStr name ≠ "" ∧ trimStr plate ≠ "" ∧ i < favorites.length ∧
      favoriteMatchesDraft (favorites.getD i default) name plate = true ∧
      ∀ j, j < i → favoriteMatchesDraft (favorites.getD j default) name plate = false) := by
  constructor
  · intro h
    unfold findFavoriteIndexByDraft
    rcases h with h | h <;> simp [h]
  · intro i
    unfold findFavoriteIndexByDraft
    by_cases hn : trimStr name = ""
    · simp [hn]
    by_cases hp : trimStr plate = ""
    · simp [hn, hp]
    rw [if_neg (by simp [hn, hp])]
    rw [findMatchIdx_eq_some_iff]
    constructor
    · rintro ⟨h1, h2, h3⟩
      exact ⟨hn, hp, h1, h2, h3⟩
    · rintro ⟨_, _, h1, h2, h3⟩
      exact ⟨h1, h2, h3⟩

/-- Witness for C7: on a concrete list where only the second favorite
matches the draft, the characterization yields index 1. -/
theorem claim7_witness :
    findFavoriteIndexByDraft
      [({ id := none, name := some "Dad", license_plate := some "ZZ" } : Favorite),
       { id := none, name := some "mom", license_plate := some "AB12CD" }]
      "Mom " "ab-12-cd" = some 1 := by
  refine ((claim7_findMatchingIndex_characterization
      [({ id := none, name := some "Dad", license_plate := some "ZZ" } : Favorite),
       { id := none, name := some "mom", license_plate := some "AB12CD" }]
      "Mom " "ab-12-cd").2 1).mpr ?_
  refine ⟨by decide, by decide, by decide, by decide, ?_⟩
  intro j hj
  obtain rfl : j = 0 := by omega
  decide

/-- C8: a favorite-select value that parses to a negative index, an index
at or beyond the list length, or no (finite) number at all yields exactly
the same derived selection and action flags as the empty (no-selection)
value; all involved functions are total, so no error is possible. -/
theorem claim8_invalid_selection_acts_like_none (favorites : List Favorite) (d : DraftState)
    (h : jsNumber d.favoriteDraft = none ∨
         ∃ n, jsNumber d.favoriteDraft = some n ∧ (n < 0 ∨ (favorites.length : Int) ≤ n)) :
    selectedFavoriteIndex favorites d.favoriteDraft = none ∧
    selectedFavorite favorites d.favoriteDraft = selectedFavorite favorites "" ∧
    selectedFavoriteId favorites d = selectedFavoriteId favorites { d with favoriteDraft := "" } ∧
    showAddToFavorites favorites d = showAddToFavorites favorites { d with favoriteDraft := "" } ∧
    offerUpdateFavorite favorites d = offerUpdateFavorite favorites { d with favoriteDraft := "" } ∧
    canUpdateFavorite favorites d = canUpdateFavorite favorites { d with favoriteDraft := "" } ∧
    canDeleteFavorite favorites d = canDeleteFavorite favorites { d with favoriteDraft := "" } ∧
    showDeleteFavorite favorites d = showDeleteFavorite favorites { d with favoriteDraft := "" } := by
  have hidx : selectedFavoriteIndex favorites d.favoriteDraft = none := by
    unfold selectedFavoriteIndex
    split
    · rfl
    · rcases h with h | ⟨n, hn, hcond⟩
      · rw [h]
      · rw [hn]
        show (if (decide (n < 0) || decide ((favorites.length : Int) ≤ n)) = true
              then none else some n.toNat) = none
        have hc : (decide (n < 0) || decide ((favorites.length : Int) ≤ n)) = true := by
          rcases hcond with h1 | h1 <;> simp [h1]
        rw [if_pos hc]
  have hidx0 : selectedFavoriteIndex favorites ("" : String) = none := by
    unfold selectedFavoriteIndex
    simp
  have hsel : selectedFavorite favorites d.favoriteDraft = none := by
    unfold selectedFavorite
    rw [hidx]
    rfl
  have hsel0 : selectedFavorite favorites ("" : String) = none := by
    unfold selectedFavorite
    rw [hidx0]
    rfl
  refine ⟨hidx, by rw [hsel, hsel0], ?_, ?_, ?_, ?_, ?_, ?_⟩
  · simp [selectedFavoriteId, hsel, hsel0]
  · have hsame : draftMatchesExistingFavorite favorites { d with favoriteDraft := "" } =
        draftMatchesExistingFavorite favorites d := rfl
    simp [showAddToFavorites, hsel, hsel0, hsame]
  · simp [offerUpdateFavorite, hsel, hsel0]
  · simp [canUpdateFavorite, offerUpdateFavorite, hsel, hsel0]
  · simp [canDeleteFavorite, selectedFavoriteId, hsel, hsel0]
  · simp [showDeleteFavorite, canDeleteFavorite, selectedFavoriteId, hsel, hsel0]

/-- Witness for C8: selecting index 5 in a one-element favorites list shows
the same delete-action state as no selection. -/
theorem claim8_witness :
    showDeleteFavorite [({ id := some (.num 1), name := some "Mom", license_plate := some "AB" } : Favorite)]
        ⟨"5", "x", "y"⟩ =
      showDeleteFavorite [({ id := some (.num 1), name := some "Mom", license_plate := some "AB" } : Favorite)]
        ⟨"", "x", "y"⟩ :=
  (claim8_invalid_selection_acts_like_none
      [({ id := some (.num 1), name := some "Mom", license_plate := some "AB" } : Favorite)]
      ⟨"5", "x", "y"⟩
      (Or.inr ⟨5, by decide, by decide⟩)).2.2.2.2.2.2.2

/-- C9 counterexample: in a list with two identical favorites, the fields of
the favorite at index 1 are `"a"` and `"B1"`, but `findMatchingIndex`
applied to them returns index 0, not 1 (first match wins), so matching is
not reflexive as claimed. -/
theorem claim9_counterexample :
    (([({ id := none, name := some "a", license_plate := some "B1" } : Favorite),
       { id := none, name := some "a", license_plate := some "B1" }].getD 1 default).name.getD ""
      = "a") ∧
    (([({ id := none, name := some "a", license_plate := some "B1" } : Favorite),
       { id := none, name := some "a", license_plate := some "B1" }].getD 1 default).license_plate.getD ""
      = "B1") ∧
    findFavoriteIndexByDraft
      [({ id := none, name := some "a", license_plate := some "B1" } : Favorite),
       { id := none, name := some "a", license_plate := some "B1" }] "a" "B1" = some 0 ∧
    ((some 0 : Option Nat) == some 1) = false := by
  decide

/-- C9 amended: provided favorite `i`'s trimmed name and plate are
non-empty, `findMatchingIndex` applied to favorite `i`'s own fields returns
the smallest index whose favorite has the same normalized fields (always at
most `i`), and it returns `i` itself exactly when no earlier favorite
shares those normalized fields; when favorite `i`'s name or plate trims to
empty it returns `none`. -/
theorem claim9_own_fields_characterization (favorites : List Favorite) (i : Nat)
    (name plate : String) (hi : i < favorites.length)
    (hname : name = (favorites.getD i default).name.getD "")
    (hplate : plate = (favorites.getD i default).license_plate.getD "") :
    ((trimStr name = "" ∨ trimStr plate = "") →
      findFavoriteIndexByDraft favorites name plate = none) ∧
    (trimStr name ≠ "" → trimStr plate ≠ "" →
      ∃ j, j ≤ i ∧ findFavoriteIndexByDraft favorites name plate = some j ∧
        favoriteMatchesDraft (favorites.getD j default) name plate = true ∧
        ∀ k, k < j → favoriteMatchesDraft (favorites.getD k default) name plate = false) ∧
    (trimStr name ≠ "" → trimStr plate ≠ "" →
      (findFavoriteIndexByDraft favorites name plate = some i ↔
        ∀ j, j < i → favoriteMatchesDraft (favorites.getD j default) name plate = false)) := by
  subst hname
  subst hplate
  have hself : favoriteMatchesDraft (favorites.getD i default)
      ((favorites.getD i default).name.getD "")
      ((favorites.getD i default).license_plate.getD "") = true :=
    favoriteMatchesDraft_self _
  refine ⟨?_, ?_, ?_⟩
  · intro h
    unfold findFavoriteIndexByDraft
    rw [if_pos (by
      rcases h with h | h
      · rw [h]
        simp
      · rw [h]
        simp)]
  · intro hn hp
    unfold findFavoriteIndexByDraft
    rw [if_neg (by
      simp only [Bool.or_eq_true, decide_eq_true_eq, not_or]
      exact ⟨hn, hp⟩)]
    cases hfind : findMatchIdx ((favorites.getD i default).name.getD "")
        ((favorites.getD i default).license_plate.getD "") favorites with
    | none =>
      have hall := (findMatchIdx_eq_none_iff _ _ _).mp hfind
      have hcon := hall i hi
      rw [hself] at hcon
      simp at hcon
    | some j =>
      obtain ⟨hjlen, hjpred, hjall⟩ := (findMatchIdx_eq_some_iff _ _ _ _).mp hfind
      refine ⟨j, ?_, rfl, hjpred, hjall⟩
      by_contra hgt
      push_neg at hgt
      have hcon := hjall i hgt
      rw [hself] at hcon
      simp at hcon
  · intro hn hp
    unfold findFavoriteIndexByDraft
    rw [if_neg (by
      simp only [Bool.or_eq_true, decide_eq_true_eq, not_or]
      exact ⟨hn, hp⟩)]
    rw [findMatchIdx_eq_some_iff]
    constructor
    · rintro ⟨_, _, hall⟩
      exact hall
    · intro hall
      exact ⟨hi, hself, hall⟩

/-- Witness for C9: the second favorite of a two-element list with distinct
favorites is found at its own index, through the exactly-when direction of
the characterization. -/
theorem claim9_witness :
    findFavoriteIndexByDraft
      [({ id := none, name := some "b", license_plate := some "C2" } : Favorite),
       { id := none, name := some "a", license_plate := some "B1" }] "a" "B1" = some 1 := by
  have h := (claim9_own_fields_characterization
      [({ id := none, name := some "b", license_plate := some "C2" } : Favorite),
       { id := none, name := some "a", license_plate := some "B1" }] 1 "a" "B1"
      (by decide) (by decide) (by decide)).2.2 (by decide) (by decide)
  refine h.mpr ?_
  intro j hj
  obtain rfl : j = 0 := by omega
  decide

theorem updatedLoads_shape (h : Hass) (s : CardState) :
    ∃ b1 b2, (updatedLoads h s).1 = { s with entriesLoaded := b1, entityRegistryLoaded := b2 } := by
  simp only [updatedLoads]
  split <;> split <;> exact ⟨_, _, rfl⟩

theorem updatedLoads_adminWS (h : Hass) (s : CardState) (hh : (h.isAdmin && h.hasWS) = true) :
    (updatedLoads h s).1 = s := by
  unfold updatedLoads
  simp [hh]

theorem updatedLoads_entries (h : Hass) (s : CardState) :
    (updatedLoads h s).1.entries = s.entries := by
  obtain ⟨b1, b2, hb⟩ := updatedLoads_shape h s
  rw [hb]

theorem updatedResolve_frame (h : Hass) (cfg : CardConfig) (s : CardState)
    (cc : Option (Option CardConfig)) (now : Int) :
    (updatedResolve h cfg s cc now).1.config = s.config ∧
    (updatedResolve h cfg s cc now).1.draft = s.draft ∧
    (updatedResolve h cfg s cc now).1.addToFavorites = s.addToFavorites ∧
    (updatedResolve h cfg s cc now).1.updateFavorite = s.updateFavorite ∧
    (updatedResolve h cfg s cc now).1.submitting = s.submitting ∧
    (updatedResolve h cfg s cc now).1.deletingFavorite = s.deletingFavorite ∧
    (updatedResolve h cfg s cc now).1.updatingFavorite = s.updatingFavorite ∧
    (updatedResolve h cfg s cc now).1.resolvingService = s.resolvingService ∧
    (updatedResolve h cfg s cc now).1.entries = s.entries ∧
    (updatedResolve h cfg s cc now).1.entriesLoaded = s.entriesLoaded ∧
    (updatedResolve h cfg s cc now).1.entityRegistry = s.entityRegistry ∧
    (updatedResolve h cfg s cc now).1.entityRegistryLoaded = s.entityRegistryLoaded ∧
    (updatedResolve h cfg s cc now).1.selectedEntryId = s.selectedEntryId := by
  simp only [updatedResolve]
  repeat' split
  all_goals simp

theorem updatedResolve_attempt (h : Hass) (cfg : CardConfig) (s : CardState)
    (cc : Option (Option CardConfig)) (now : Int) (s' : CardState) (e : String)
    (heq : updatedResolve h cfg s cc now = (s', some e)) :
    activeEntryId s = some e ∧
    entryIdentifier s.entries (some e) = none ∧
    h.isAdmin = true ∧ h.hasWS = true ∧
    s'.lastResolveAttempt = some now ∧ s'.lastResolveEntryId = some e ∧
    ((∃ prev, cc = some prev ∧ prev.bind CardConfig.config_entry_id ≠ some e) ∨
     s.lastResolveEntryId ≠ some e ∨ s.lastResolveAttempt = none ∨
     ∃ t, s.lastResolveAttempt = some t ∧ now - t > resolveCooldown) := by
  simp only [updatedResolve] at heq
  split at heq
  · simp at heq
  rename_i hguard
  split at heq
  · simp at heq
  rename_i ident hident
  split at heq
  · simp at heq
  rename_i hadm
  split at heq
  · simp at heq
  rename_i hws
  have hadm' : h.isAdmin = true := by
    simpa using hadm
  have hws' : h.hasWS = true := by
    simpa using hws
  split at heq
  · rename_i hchanged
    split at heq
    · simp at heq
    rename_i hserv
    split at heq
    · simp at heq
    rename_i hres
    split at heq
    · simp at heq
    rename_i hretry
    rw [Prod.mk.injEq] at heq
    obtain ⟨hs', hent⟩ := heq
    subst hs'
    refine ⟨hent, by rw [← hent]; exact hident, hadm', hws', rfl, by simpa using hent, ?_⟩
    left
    cases cc with
    | none => simp at hchanged
    | some prev =>
      refine ⟨prev, rfl, ?_⟩
      rw [hent] at hchanged
      simpa using hchanged
  · rename_i hchanged
    split at heq
    · simp at heq
    rename_i hserv
    split at heq
    · simp at heq
    rename_i hres
    split at heq
    · simp at heq
    rename_i hretry
    rw [Prod.mk.injEq] at heq
    obtain ⟨hs', hent⟩ := heq
    subst hs'
    refine ⟨hent, by rw [← hent]; exact hident, hadm', hws', rfl, by simpa using hent, ?_⟩
    rw [Bool.not_eq_true] at hretry
    have hor : (!(s.lastResolveEntryId == activeEntryId s) ||
        (match s.lastResolveAttempt with
         | none => true
         | some t => decide (now - t > resolveCooldown))) = true := by
      cases hb : (!(s.lastResolveEntryId == activeEntryId s) ||
          (match s.lastResolveAttempt with
           | none => true
           | some t => decide (now - t > resolveCooldown)))
      · rw [hb] at hretry
        simp at hretry
      · rfl
    rw [Bool.or_eq_true] at hor
    rcases hor with hretry | hretry
    · right; left
      rw [Bool.not_eq_true'] at hretry
      rw [hent] at hretry
      intro hcontra
      rw [hcontra] at hretry
      simp at hretry
    · cases hlra : s.lastResolveAttempt with
      | none => right; right; left; rfl
      | some t =>
        right; right; right
        refine ⟨t, rfl, ?_⟩
        rw [hlra] at hretry
        simpa using hretry

/-- C4 counterexample: the active account is the manually selected entry
`A` both before and after a config change that alters only the title; the
code's account-change test (`prevConfig?.config_entry_id !== entryId`)
nevertheless fires because neither config pins an entry, so the recorded
attempt for `A` (10 time units old, well inside the cooldown) is discarded
and a second attempt for `A` launches in the same cycle, although the
active account never changed. -/
theorem claim4_counterexample :
    activeEntryId { c4bState with config := some prevTitleConfig } = some "A" ∧
    activeEntryId c4bState = some "A" ∧
    c4bState.lastResolveEntryId = some "A" ∧
    c4bState.lastResolveAttempt = some 100 ∧
    ((110 : Int) - 100 ≤ resolveCooldown) ∧
    (updatedStep (some ⟨true, true⟩) c4bState (some (some prevTitleConfig)) 110).2.resolveEntry
      = some "A" := by
  decide

/-- C4 amended: the cooldown is keyed to the code's pinned-entry
comparison, not to the active account itself: (1) when the recorded
resolution attempt is for entry `e` and the cycle carries no config change
whose previous pinned entry differs from `e`, no new attempt for `e` is
launched within the fixed cooldown window after the recorded attempt;
(2) when the cycle carries a config change whose previous pinned entry
differs from the active entry — which can happen even while the active
account stays the same — the recorded resolution state is discarded and a
fresh attempt launches immediately (with all enabling conditions present),
however recent the prior attempt. -/
theorem claim4_resolve_cooldown_unless_account_change :
    (∀ (hass : Option Hass) (s : CardState) (cc : Option (Option CardConfig))
       (now : Int) (e : String) (t : Int),
      s.lastResolveEntryId = some e →
      s.lastResolveAttempt = some t →
      now - t ≤ resolveCooldown →
      (cc = none ∨ ∃ prev, cc = some prev ∧ prev.bind CardConfig.config_entry_id = some e) →
      (updatedStep hass s cc now).2.resolveEntry ≠ some e) ∧
    (∀ (h : Hass) (s : CardState) (prev : Option CardConfig) (cfg : CardConfig)
       (now : Int) (e : String),
      h.isAdmin = true → h.hasWS = true →
      s.config = some cfg →
      trimStr (cfg.favorites_entity.getD "") = "" →
      activeEntryId s = some e → e ≠ "" →
      entryIdentifier s.entries (some e) = none →
      s.resolvingService = false →
      prev.bind CardConfig.config_entry_id ≠ some e →
      (updatedStep (some h) s (some prev) now).2.resolveEntry = some e ∧
      (updatedStep (some h) s (some prev) now).1.lastResolveAttempt = some now ∧
      (updatedStep (some h) s (some prev) now).1.lastResolveEntryId = some e ∧
      (updatedStep (some h) s (some prev) now).1.resolvedConfigEntryId = none ∧
      (updatedStep (some h) s (some prev) now).1.resolvedIdentifier = none) := by
  constructor
  · intro hass s cc now e t h1 h2 h3 h4 heff
    cases hass with
    | none => simp [updatedStep] at heff
    | some h =>
      cases hcfg : s.config with
      | none =>
        unfold updatedStep at heff
        rw [hcfg] at heff
        simp at heff
      | some cfg =>
        unfold updatedStep at heff
        rw [hcfg] at heff
        dsimp only at heff
        have heq : updatedResolve h cfg (updatedLoads h s).1 cc now =
            ((updatedResolve h cfg (updatedLoads h s).1 cc now).1, some e) := by
          rw [← heff]
        obtain ⟨hact, hident, hadm, hws, _, _, hcause⟩ :=
          updatedResolve_attempt h cfg (updatedLoads h s).1 cc now _ e heq
        have hL : (updatedLoads h s).1 = s := updatedLoads_adminWS h s (by rw [hadm, hws]; rfl)
        rw [hL] at hcause
        rcases hcause with ⟨prev, hprev, hne⟩ | hne | hnone | ⟨t2, ht2, hgt⟩
        · rcases h4 with h4 | ⟨prev2, hprev2, heqp⟩
          · rw [h4] at hprev
            exact absurd hprev (by simp)
          · rw [hprev2] at hprev
            have : prev2 = prev := by
              injection hprev
            rw [← this] at hne
            exact hne heqp
        · exact hne h1
        · rw [h2] at hnone
          exact absurd hnone (by simp)
        · rw [h2] at ht2
          have : t = t2 := by
            injection ht2
          rw [← this] at hgt
          omega
  · intro h s prev cfg now e hadm hws hcfg hfe hact hne hident hserv hprev
    have hL : (updatedLoads h s).1 = s := updatedLoads_adminWS h s (by rw [hadm, hws]; rfl)
    unfold updatedStep
    rw [hcfg]
    dsimp only
    rw [hL]
    simp only [updatedResolve, hact, hident, hfe, hadm, hws]
    simp [strTruthy, hne, hserv, bne_iff_ne, hprev]

/-- Witness for C4: with a recorded attempt for entry `A` only 10 time
units old, a config change whose previous pin was entry `B` launches a
fresh attempt for `A` immediately. -/
theorem claim4_witness :
    (updatedStep (some ⟨true, true⟩) c4State (some (some prevConfigB)) 110).2.resolveEntry
      = some "A" :=
  ((claim4_resolve_cooldown_unless_account_change).2 ⟨true, true⟩ c4State (some prevConfigB)
      ⟨"custom", none, some "A", none⟩ 110 "A" rfl rfl rfl (by decide) (by decide)
      (by decide) (by decide) rfl (by decide)).1

/-- C5 counterexample: the active account changes from `B` to `A` through a
host configuration change, yet the draft name survives the evaluation cycle
instead of being reset to its initial empty value. -/
theorem claim5_counterexample :
    activeEntryId { c5State with config := some prevConfigB } = some "B" ∧
    activeEntryId c5State = some "A" ∧
    (updatedStep (some ⟨true, true⟩) c5State (some (some prevConfigB)) 0).1.draft.nameDraft
      = "Bob" ∧
    ("Bob" == "") = false := by
  decide

/-- C5 amended: changing the active account through the entry selector
(`_setSelectedEntry`) resets the draft, the favorite selection, the
favorite toggles, the resolution cache and the retry bookkeeping, and
changes nothing else; an account change arriving through the host
configuration (`updated`) leaves the draft, the toggles and the manual
selection untouched — the `updated` cycle never modifies them. -/
theorem claim5_account_change_reset_frame :
    (∀ (s : CardState) (eid : Option String),
      (setSelectedEntry s eid).selectedEntryId = eid ∧
      (setSelectedEntry s eid).draft = ⟨"", "", ""⟩ ∧
      (setSelectedEntry s eid).addToFavorites = false ∧
      (setSelectedEntry s eid).updateFavorite = false ∧
      (setSelectedEntry s eid).resolvedConfigEntryId = none ∧
      (setSelectedEntry s eid).resolvedIdentifier = none ∧
      (setSelectedEntry s eid).lastResolveAttempt = none ∧
      (setSelectedEntry s eid).lastResolveEntryId = none ∧
      (setSelectedEntry s eid).config = s.config ∧
      (setSelectedEntry s eid).submitting = s.submitting ∧
      (setSelectedEntry s eid).deletingFavorite = s.deletingFavorite ∧
      (setSelectedEntry s eid).updatingFavorite = s.updatingFavorite ∧
      (setSelectedEntry s eid).resolvingService = s.resolvingService ∧
      (setSelectedEntry s eid).entries = s.entries ∧
      (setSelectedEntry s eid).entriesLoaded = s.entriesLoaded ∧
      (setSelectedEntry s eid).entityRegistry = s.entityRegistry ∧
      (setSelectedEntry s eid).entityRegistryLoaded = s.entityRegistryLoaded) ∧
    (∀ (hass : Option Hass) (s : CardState) (cc : Option (Option CardConfig)) (now : Int),
      (updatedStep hass s cc now).1.draft = s.draft ∧
      (updatedStep hass s cc now).1.addToFavorites = s.addToFavorites ∧
      (updatedStep hass s cc now).1.updateFavorite = s.updateFavorite ∧
      (updatedStep hass s cc now).1.selectedEntryId = s.selectedEntryId ∧
      (updatedStep hass s cc now).1.config = s.config) := by
  constructor
  · intro s eid
    exact ⟨rfl, rfl, rfl, rfl, rfl, rfl, rfl, rfl, rfl, rfl, rfl, rfl, rfl, rfl, rfl, rfl, rfl⟩
  · intro hass s cc now
    cases hass with
    | none => exact ⟨rfl, rfl, rfl, rfl, rfl⟩
    | some h =>
      cases hcfg : s.config with
      | none =>
        unfold updatedStep
        rw [hcfg]
        exact ⟨rfl, rfl, rfl, rfl, hcfg⟩
      | some cfg =>
        unfold updatedStep
        rw [hcfg]
        dsimp only
        obtain ⟨b1, b2, hb⟩ := updatedLoads_shape h s
        obtain ⟨hfc, hfd, hfa, hfu, _, _, _, _, _, _, _, _, hfs⟩ :=
          updatedResolve_frame h cfg (updatedLoads h s).1 cc now
        refine ⟨?_, ?_, ?_, ?_, ?_⟩
        · rw [hfd, hb]
        · rw [hfa, hb]
        · rw [hfu, hb]
        · rw [hfs, hb]
        · rw [hfc, hb]
          exact hcfg

/-- C6 counterexample: an entry whose declared identifier is the string
`"none"` is resolved by the code from the title parenthetical (`"42"`),
while the claim's preference rule ("the declared identifier when present")
yields `"none"`. -/
theorem claim6_counterexample :
    resolveIdentifierClaimed ⟨"entry1", "Den Haag (42)", some "none"⟩ = "none" ∧
    resolveIdentifierFromEntry ⟨"entry1", "Den Haag (42)", some "none"⟩ = "42" ∧
    ("none" == "42") = false := by
  decide

/-- C6 amended: the resolved identifier is the trimmed declared identifier
whenever that is non-blank after trimming and not (case-insensitively) the
literal string `"none"`; otherwise it is the id parsed from the title's
trailing parenthetical, falling back to the entry's own handle; and a
resolution attempt is only ever launched by an evaluation cycle when no
identifier is locally resolvable for the active entry, so an account whose
declared identifier is usable resolves without any external lookup. -/
theorem claim6_identifier_preference :
    (∀ (entry : ConfigEntrySummary) (u : String),
      entry.unique_id = some u → trimStr u ≠ "" → lowerStr (trimStr u) ≠ "none" →
      resolveIdentifierFromEntry entry = trimStr u) ∧
    (∀ entry : ConfigEntrySummary,
      (entry.unique_id = none ∨
       ∃ u, entry.unique_id = some u ∧ (trimStr u = "" ∨ lowerStr (trimStr u) = "none")) →
      resolveIdentifierFromEntry entry = (parseIdFromTitle entry.title).getD entry.entry_id) ∧
    (∀ (hass : Option Hass) (s : CardState) (cc : Option (Option CardConfig))
       (now : Int) (e : String),
      (updatedStep hass s cc now).2.resolveEntry = some e →
      entryIdentifier s.entries (some e) = none) := by
  refine ⟨?_, ?_, ?_⟩
  · intro entry u hu htrim hnone
    unfold resolveIdentifierFromEntry
    rw [hu]
    dsimp only
    rw [if_pos ⟨htrim, hnone⟩]
  · intro entry hcase
    unfold resolveIdentifierFromEntry
    rcases hcase with hnone | ⟨u, hu, hbad⟩
    · rw [hnone]
      dsimp only
      rw [if_neg (by simp)]
    · rw [hu]
      dsimp only
      rcases hbad with hb | hb
      · rw [if_neg (by simp [hb])]
      · rw [if_neg (by simp [hb])]
  · intro hass s cc now e heff
    cases hass with
    | none => simp [updatedStep] at heff
    | some h =>
      cases hcfg : s.config with
      | none =>
        unfold updatedStep at heff
        rw [hcfg] at heff
        simp at heff
      | some cfg =>
        unfold updatedStep at heff
        rw [hcfg] at heff
        dsimp only at heff
        have heq : updatedResolve h cfg (updatedLoads h s).1 cc now =
            ((updatedResolve h cfg (updatedLoads h s).1 cc now).1, some e) := by
          rw [← heff]
        obtain ⟨_, hident, _, _, _, _, _⟩ :=
          updatedResolve_attempt h cfg (updatedLoads h s).1 cc now _ e heq
        rw [updatedLoads_entries h s] at hident
        exact hident

/-- Witness for C6: an entry with declared identifier `" 42 "` resolves to
the trimmed identifier `"42"` locally. -/
theorem claim6_witness :
    resolveIdentifierFromEntry ⟨"id1", "T", some " 42 "⟩ = trimStr " 42 " :=
  claim6_identifier_preference.1 ⟨"id1", "T", some " 42 "⟩ " 42 " rfl (by decide) (by decide)

theorem canUpdateFavorite_name_nonempty (favorites : List Favorite) (d : DraftState)
    (h : canUpdateFavorite favorites d = true) : trimStr d.nameDraft ≠ "" := by
  unfold canUpdateFavorite at h
  split at h
  · simp at h
  split at h
  · simp at h
  rename_i hcond
  intro hc
  exact hcond (by simp [hc])

theorem showAddToFavorites_name_nonempty (favorites : List Favorite) (d : DraftState)
    (h : showAddToFavorites favorites d = true) : trimStr d.nameDraft ≠ "" := by
  unfold showAddToFavorites at h
  split at h
  · simp at h
  rename_i hcond
  intro hc
  exact hcond (by simp [hc])

/-- C10 counterexample: the reservation succeeds but the follow-up
`create_favorite` call rejects; a notification is emitted, yet the draft is
cleared rather than left unchanged as the claim requires. -/
theorem claim10_counterexample :
    (submitStep (some ⟨true, true⟩) [] c10State true false).2
      = ["new_reservation_card.could_not_save_favorite"] ∧
    (submitStep (some ⟨true, true⟩) [] c10State true false).1.draft.nameDraft = "" ∧
    c10State.draft.nameDraft = "Bob" ∧
    ("" == "Bob") = false := by
  decide

/-- C10 amended: when `create_reservation` rejects, or `delete_favorite`
rejects, a notification is emitted and the draft state (name, plate,
selection, toggles) is left unchanged; when the follow-up favorite mutation
(`update_favorite` / `create_favorite`) rejects after a successful
reservation, a notification is emitted but the draft state is cleared
(the reservation itself went through). -/
theorem claim10_mutation_failure_behavior :
    (∀ (h : Hass) (favorites : List Favorite) (s : CardState) (cfg : CardConfig) (b : Bool),
      s.config = some cfg →
      strTruthy (activeEntryId s) = true →
      trimStr s.draft.licensePlateDraft ≠ "" →
      submitStep (some h) favorites s false b =
        ({ s with submitting := false }, ["new_reservation_card.could_not_submit"])) ∧
    (∀ (h : Hass) (favorites : List Favorite) (s : CardState) (cfg : CardConfig),
      s.config = some cfg →
      strTruthy (activeEntryId s) = true →
      (selectedFavoriteId favorites s.draft).isSome = true →
      deleteFavoriteStep (some h) favorites s false =
        ({ s with deletingFavorite := false },
         ["new_reservation_card.could_not_remove_favorite"])) ∧
    (∀ (h : Hass) (favorites : List Favorite) (s : CardState) (cfg : CardConfig),
      s.config = some cfg →
      strTruthy (activeEntryId s) = true →
      trimStr s.draft.licensePlateDraft ≠ "" →
      ((selectedFavoriteId favorites s.draft).isSome && s.updateFavorite &&
        canUpdateFavorite favorites s.draft && selectedFavoriteChanged favorites s.draft) = true →
      submitStep (some h) favorites s true false =
        ({ s with draft := ⟨"", "", ""⟩, addToFavorites := false, updateFavorite := false,
                  submitting := false, updatingFavorite := false },
         ["new_reservation_card.could_not_update_favorite"])) ∧
    (∀ (h : Hass) (favorites : List Favorite) (s : CardState) (cfg : CardConfig),
      s.config = some cfg →
      strTruthy (activeEntryId s) = true →
      trimStr s.draft.licensePlateDraft ≠ "" →
      ((selectedFavoriteId favorites s.draft).isSome && s.updateFavorite &&
        canUpdateFavorite favorites s.draft && selectedFavoriteChanged favorites s.draft) = false →
      (s.addToFavorites && showAddToFavorites favorites s.draft) = true →
      submitStep (some h) favorites s true false =
        ({ s with draft := ⟨"", "", ""⟩, addToFavorites := false, updateFavorite := false,
                  submitting := false },
         ["new_reservation_card.could_not_save_favorite"])) := by
  refine ⟨?_, ?_, ?_, ?_⟩
  · intro h favorites s cfg b hcfg hact hplate
    unfold submitStep
    rw [hcfg]
    dsimp only
    rw [if_neg (by simp)]
    rw [if_neg (by simp [hact])]
    rw [if_neg hplate]
    rfl
  · intro h favorites s cfg hcfg hact hfav
    unfold deleteFavoriteStep
    rw [hcfg]
    dsimp only
    rw [if_neg (by simp)]
    rw [if_neg (by simp [hact])]
    rcases hopt : selectedFavoriteId favorites s.draft with _ | v
    · rw [hopt] at hfav
      simp at hfav
    · rw [if_neg (by simp)]
      rw [if_neg (by simp)]
  · intro h favorites s cfg hcfg hact hplate hshould
    have hsplit := hshould
    simp only [Bool.and_eq_true] at hsplit
    have hname := canUpdateFavorite_name_nonempty favorites s.draft hsplit.1.2
    unfold submitStep
    rw [hcfg]
    dsimp only
    rw [if_neg (by simp)]
    rw [if_neg (by simp [hact])]
    rw [if_neg hplate]
    rw [if_neg (by simp)]
    rw [if_pos hshould]
    rw [if_neg hname]
    rfl
  · intro h favorites s cfg hcfg hact hplate hshould hadd
    have haddsplit := hadd
    simp only [Bool.and_eq_true] at haddsplit
    have hname := showAddToFavorites_name_nonempty favorites s.draft haddsplit.2
    unfold submitStep
    rw [hcfg]
    dsimp only
    rw [if_neg (by simp)]
    rw [if_neg (by simp [hact])]
    rw [if_neg hplate]
    rw [if_neg (by simp)]
    rw [if_neg (by simp [hshould])]
    rw [if_pos hadd]
    rw [if_neg hname]
    rfl

/-- Witness for C10: a rejected `create_reservation` call on a concrete
state emits the submit-failure notification and leaves the draft intact. -/
theorem claim10_witness :
    submitStep (some ⟨true, true⟩) [] c10State false true =
      ({ c10State with submitting := false }, ["new_reservation_card.could_not_submit"]) :=
  claim10_mutation_failure_behavior.1 ⟨true, true⟩ [] c10State
    ⟨"custom", none, some "A", none⟩ true rfl (by decide) (by decide)
